import Mathlib

/-!
# ForkMonkey visualizer: a shallow embedding

This file embeds `src/visualizer.py` (class `MonkeyVisualizer`) in Lean: every
renderer becomes a total function from the resolved trait strings, the canvas
dimensions and the placement seed to the SVG markup it emits, and the composed
document is the newline-join of the fragment list, exactly as in the source.
Python `%` on ints is `Int.fmod` (both are floor-mod, taking the divisor's
sign), `//` is `Int.fdiv`, and f-string interpolation of an int matches
`toString` on `Int`.  The three opacity values that Python computes in floating
point are embedded as the exact `repr` strings Python produces for them.
-/

namespace ForkMonkey

/-- Modelled from the spec: `MonkeyDNA` comes from the genetics module, which is
absent from the sources.  Per the spec it maps each of the six trait categories
to one trait-value string, and carries a generation counter, a rarity score
(a float in 0..100, embedded as a rational), and an identity fingerprint that
is a stable hex-digest hash of the trait assignment (embedded as its sequence
of hex digits, possibly empty). -/
structure MonkeyDNA where
  body_color : String
  face_expression : String
  accessory : String
  pattern : String
  background : String
  special : String
  generation : Int
  dna_hash : List (Fin 16)
  rarity_score : ℚ

/-- Modelled from the spec: `get_rarity_score` returns the DNA's derived rarity
score (visualizer.py only reads it, in `_generate_badge`). -/
def MonkeyDNA.get_rarity_score (dna : MonkeyDNA) : ℚ := dna.rarity_score

/-- A `BODY_COLORS` entry: the main/shadow/highlight color triple. -/
structure ColorTriple where
  main : String
  shadow : String
  highlight : String
deriving DecidableEq

/-- The `"brown"` entry of `BODY_COLORS`, which is also the fallback used by
`_generate_body` for unknown color identifiers (visualizer.py line 213). -/
def brownTriple : ColorTriple := ⟨"#8B4513", "#5D2E0C", "#A0522D"⟩

/-- The `BODY_COLORS` dict (visualizer.py lines 16-33); `none` stands for an
identifier absent from the dict. -/
def BODY_COLORS : String → Option ColorTriple
  | "brown" => some brownTriple
  | "tan" => some ⟨"#D2B48C", "#B8956E", "#E8D4B8"⟩
  | "beige" => some ⟨"#F5F5DC", "#D4D4B8", "#FFFFF0"⟩
  | "gray" => some ⟨"#808080", "#5A5A5A", "#A0A0A0"⟩
  | "golden" => some ⟨"#FFD700", "#B8860B", "#FFEC8B"⟩
  | "silver" => some ⟨"#C0C0C0", "#909090", "#E8E8E8"⟩
  | "copper" => some ⟨"#B87333", "#8B5A2B", "#D4A574"⟩
  | "bronze" => some ⟨"#CD7F32", "#8B5A2B", "#DAA06D"⟩
  | "blue" => some ⟨"#4169E1", "#2E4A9E", "#6B8BF5"⟩
  | "purple" => some ⟨"#9370DB", "#6A4FA0", "#B19CD9"⟩
  | "green" => some ⟨"#32CD32", "#228B22", "#7CFC00"⟩
  | "pink" => some ⟨"#FF69B4", "#DB4D91", "#FFB6C1"⟩
  | "rainbow" => some ⟨"url(#rainbow-body)", "#9400D3", "#FFD700"⟩
  | "galaxy" => some ⟨"url(#galaxy-body)", "#1A0033", "#E6E6FA"⟩
  | "holographic" => some ⟨"url(#holo-body)", "#4B0082", "#FFFFFF"⟩
  | "crystal" => some ⟨"#E0FFFF", "#87CEEB", "#FFFFFF"⟩
  | _ => none

/-- A `BACKGROUNDS` entry: solid fill, gradient reference, or scene (base fill
plus a named decorative element set). -/
inductive BgCfg where
  | solid (color : String)
  | gradient (gid : String)
  | scene (base : String) (elements : String)
deriving DecidableEq

/-- The `"white"` entry of `BACKGROUNDS`, which is also the fallback used by
`_generate_background` for unknown background identifiers (line 138). -/
def whiteBg : BgCfg := BgCfg.solid "#F8F9FA"

/-- The `BACKGROUNDS` dict (visualizer.py lines 35-52); `none` stands for an
identifier absent from the dict. -/
def BACKGROUNDS : String → Option BgCfg
  | "white" => some whiteBg
  | "blue_sky" => some (BgCfg.gradient "sky-gradient")
  | "green_grass" => some (BgCfg.gradient "grass-gradient")
  | "sunset" => some (BgCfg.gradient "sunset-gradient")
  | "forest" => some (BgCfg.scene "#1A4D1A" "trees")
  | "beach" => some (BgCfg.scene "#F0E68C" "waves")
  | "mountains" => some (BgCfg.scene "#708090" "peaks")
  | "city" => some (BgCfg.scene "#2C3E50" "buildings")
  | "space" => some (BgCfg.scene "#0D1B2A" "stars")
  | "underwater" => some (BgCfg.scene "#006994" "bubbles")
  | "volcano" => some (BgCfg.scene "#1A0A00" "lava")
  | "aurora" => some (BgCfg.gradient "aurora-gradient")
  | "multiverse" => some (BgCfg.gradient "multiverse-gradient")
  | "black_hole" => some (BgCfg.scene "#000000" "vortex")
  | "dimension_rift" => some (BgCfg.gradient "rift-gradient")
  | "heaven" => some (BgCfg.gradient "heaven-gradient")
  | _ => none

/-- Python's `sep.join(parts)`. -/
def joinSep (sep : String) : List String → String
  | [] => ""
  | [x] => x
  | x :: y :: xs => x ++ sep ++ joinSep sep (y :: xs)

/-- Python's `range(start, stop, step)` for a positive step, as the list of
visited values. -/
def pyRange (start stop step : Int) : List Int :=
  if step ≤ 0 then []
  else (List.range ((stop - start + step - 1).fdiv step).toNat).map
    (fun k => start + step * (k : Int))

/-- The star opacity `0.4 + i % 5 * 0.1` of visualizer.py line 160, as the
exact decimal string Python's float formatting produces for it. -/
def starOpacity (i : Nat) : String :=
  match i % 5 with
  | 0 => "0.4"
  | 1 => "0.5"
  | 2 => "0.6000000000000001"
  | 3 => "0.7000000000000001"
  | _ => "0.8"

/-- The wave opacity `0.25 - i * 0.06` of line 172 (`i < 3`), as the exact
decimal string Python's float formatting produces for it. -/
def waveOpacity (i : Nat) : String :=
  match i with
  | 0 => "0.25"
  | 1 => "0.19"
  | _ => "0.13"

/-- The vortex ring opacity `0.1 + i * 0.05` of line 204 (`i < 6`), as the
exact decimal string Python's float formatting produces for it. -/
def vortexOpacity (i : Nat) : String :=
  match i with
  | 0 => "0.1"
  | 1 => "0.15000000000000002"
  | 2 => "0.2"
  | 3 => "0.25"
  | 4 => "0.30000000000000004"
  | _ => "0.35"

/-- Star x placement `(seed * (i+1) * 7) % w` (line 158). -/
def starsX (seed i w : Int) : Int := (seed * (i + 1) * 7).fmod w

/-- Star y placement `(seed * (i+1) * 13) % h` (line 158). -/
def starsY (seed i h : Int) : Int := (seed * (i + 1) * 13).fmod h

/-- Tree height `50 + (seed * i) % 30` (line 165). -/
def treesTh (seed i : Int) : Int := 50 + (seed * i).fmod 30

/-- Building height `70 + (seed * (i+1)) % 90` (line 182). -/
def buildingsBh (seed i : Int) : Int := 70 + (seed * (i + 1)).fmod 90

/-- Bubble x placement `(seed * (i+1) * 17) % w` (line 191). -/
def bubblesX (seed i w : Int) : Int := (seed * (i + 1) * 17).fmod w

/-- Bubble y placement `(seed * (i+1) * 23) % h` (line 191). -/
def bubblesY (seed i h : Int) : Int := (seed * (i + 1) * 23).fmod h

/-- Lava bubble x placement `30 + (seed * i * 11) % (w-60)` (line 198). -/
def lavaX (seed i w : Int) : Int := 30 + (seed * i * 11).fmod (w - 60)

/-- Spots pattern x placement `cx + ((seed * i * 7) % 180) - 90` (line 240). -/
def spotsX (seed cx i : Int) : Int := cx + (seed * i * 7).fmod 180 - 90

/-- Spots pattern y placement `cy + ((seed * i * 11) % 180) - 90` (line 240). -/
def spotsY (seed cy i : Int) : Int := cy + (seed * i * 11).fmod 180 - 90

/-- Stars pattern x placement `cx + ((seed * i * 13) % 160) - 80` (line 244). -/
def patternStarsX (seed cx i : Int) : Int := cx + (seed * i * 13).fmod 160 - 80

/-- Stars pattern y placement `cy + ((seed * i * 17) % 160) - 80` (line 244). -/
def patternStarsY (seed cy i : Int) : Int := cy + (seed * i * 17).fmod 160 - 80

/-- Hearts pattern x placement `cx + ((seed * i * 19) % 140) - 70` (line 246). -/
def heartsX (seed cx i : Int) : Int := cx + (seed * i * 19).fmod 140 - 70

/-- Hearts pattern y placement `cy + ((seed * i * 23) % 140) - 70` (line 246). -/
def heartsY (seed cy i : Int) : Int := cy + (seed * i * 23).fmod 140 - 70

/-- Diamonds pattern x placement `cx + ((seed * i * 11) % 150) - 75` (line 248). -/
def diamondsX (seed cx i : Int) : Int := cx + (seed * i * 11).fmod 150 - 75

/-- Diamonds pattern y placement `cy + ((seed * i * 13) % 150) - 75` (line 248). -/
def diamondsY (seed cy i : Int) : Int := cy + (seed * i * 13).fmod 150 - 75

/-- Particle x placement `cx + ((seed * i * 13) % 200) - 100` (line 417). -/
def particlesX (seed cx i : Int) : Int := cx + (seed * i * 13).fmod 200 - 100

/-- Particle y placement `cy + ((seed * i * 17) % 200) - 100` (line 417). -/
def particlesY (seed cy i : Int) : Int := cy + (seed * i * 17).fmod 200 - 100

/-- Modelled from the spec: the claimed placement formula
`position = (seed * (index+1) * multiplier) mod bound`. -/
def place (seed i mult bound : Int) : Int := (seed * (i + 1) * mult).fmod bound

/-- The placement formula with the unshifted index,
`position = (seed * index * multiplier) mod bound`. -/
def placeIdx (seed i mult bound : Int) : Int := (seed * i * mult).fmod bound

/-- `_scene_elements` (visualizer.py lines 151-207): the decorative element
sets drawn over a scene background's base fill. -/
def _scene_elements (elem : String) (w h seed : Int) : String :=
  let parts : List String :=
    if elem = "stars" then
      (List.range 40).map (fun (i : Nat) =>
        let x := starsX seed i w
        let y := starsY seed i h
        let r := 1 + i % 2
        s!"<circle cx=\"{x}\" cy=\"{y}\" r=\"{r}\" fill=\"white\" opacity=\"{starOpacity i}\"/>")
    else if elem = "trees" then
      (List.range 5).flatMap (fun i =>
        let x : Int := 40 + (i : Int) * 80
        let th := treesTh seed i
        [s!"<polygon points=\"{x},{h-20} {x-20},{h-20} {x},{h-20-th}\" fill=\"#0D3D0D\" opacity=\"0.5\"/>",
         s!"<polygon points=\"{x},{h-20} {x+20},{h-20} {x},{h-20-th}\" fill=\"#1A5C1A\" opacity=\"0.5\"/>"])
    else if elem = "waves" then
      (List.range 3).map (fun (i : Nat) =>
        let y := h - 50 + (i : Int) * 15
        s!"<path d=\"M0 {y} Q100 {y-12} 200 {y} T400 {y}\" fill=\"#4169E1\" opacity=\"{waveOpacity i}\"/>")
    else if elem = "peaks" then
      [s!"<polygon points=\"50,{h} 150,{h-140} 250,{h}\" fill=\"#4A5568\"/>",
       s!"<polygon points=\"180,{h} 280,{h-180} 380,{h}\" fill=\"#2D3748\"/>",
       s!"<polygon points=\"145,{h-130} 150,{h-140} 155,{h-130}\" fill=\"white\"/>",
       s!"<polygon points=\"275,{h-170} 280,{h-180} 285,{h-170}\" fill=\"white\"/>"]
    else if elem = "buildings" then
      (List.range 7).flatMap (fun i =>
        let x : Int := (i : Int) * 60
        let bh := buildingsBh seed i
        s!"<rect x=\"{x}\" y=\"{h-bh}\" width=\"50\" height=\"{bh}\" fill=\"#1A202C\"/>" ::
        (pyRange 10 (bh - 10) 18).flatMap (fun wy =>
          (pyRange 8 42 14).filterMap (fun wx =>
            if (seed + (i : Int) + wy + wx).fmod 3 ≠ 0 then
              some s!"<rect x=\"{x+wx}\" y=\"{h-bh+wy}\" width=\"6\" height=\"8\" fill=\"#FFD700\" opacity=\"0.6\"/>"
            else none)))
    else if elem = "bubbles" then
      (List.range 15).map (fun i =>
        let x := bubblesX seed i w
        let y := bubblesY seed i h
        let r := 4 + i % 8
        s!"<circle cx=\"{x}\" cy=\"{y}\" r=\"{r}\" fill=\"none\" stroke=\"white\" opacity=\"0.25\"/>")
    else if elem = "lava" then
      s!"<rect x=\"0\" y=\"{h-60}\" width=\"{w}\" height=\"60\" fill=\"#FF4500\" opacity=\"0.6\"/>" ::
      (List.range 6).map (fun i =>
        let x := lavaX seed i w
        let r := 6 + i % 4
        s!"<circle cx=\"{x}\" cy=\"{h-25}\" r=\"{r}\" fill=\"#FF6600\"/>")
    else if elem = "vortex" then
      let cx := w.fdiv 2
      let cy := h.fdiv 2
      ((List.range 6).map (fun (i : Nat) =>
        let r : Int := 160 - (i : Int) * 25
        s!"<circle cx=\"{cx}\" cy=\"{cy}\" r=\"{r}\" fill=\"none\" stroke=\"#4B0082\" stroke-width=\"2\" opacity=\"{vortexOpacity i}\"/>")) ++
      [s!"<circle cx=\"{cx}\" cy=\"{cy}\" r=\"25\" fill=\"#000\"/>"]
    else []
  joinSep "\n" parts

/-- `_generate_background` (lines 135-149).  Unknown identifiers fall back to
the `"white"` entry, `BACKGROUNDS["white"]`. -/
def _generate_background (bg : String) (w h seed : Int) : String :=
  let cfg := (BACKGROUNDS bg).getD whiteBg
  let parts : List String :=
    match cfg with
    | BgCfg.solid color => [s!"<rect width=\"{w}\" height=\"{h}\" fill=\"{color}\"/>"]
    | BgCfg.gradient gid => [s!"<rect width=\"{w}\" height=\"{h}\" fill=\"url(#{gid})\"/>"]
    | BgCfg.scene base elements =>
      [s!"<rect width=\"{w}\" height=\"{h}\" fill=\"{base}\"/>",
       _scene_elements elements w h seed]
  joinSep "\n" parts

/-- `_pattern` (lines 236-261): the body pattern overlay.  Unrecognized
identifiers yield the empty string. -/
def _pattern (p : String) (cx cy seed : Int) : String :=
  if p = "spots" then
    joinSep "" ((List.range 10).map (fun i =>
      s!"<circle cx=\"{spotsX seed cx i}\" cy=\"{spotsY seed cy i}\" r=\"12\" fill=\"#000\" opacity=\"0.12\"/>"))
  else if p = "stripes" then
    joinSep "" ((List.range 6).map (fun (i : Nat) =>
      let y := cy - 100 + (i : Int) * 35
      s!"<rect x=\"{cx-110}\" y=\"{y}\" width=\"220\" height=\"12\" fill=\"#000\" opacity=\"0.08\" transform=\"rotate(-15 {cx} {cy})\"/>"))
  else if p = "stars" then
    joinSep "" ((List.range 8).map (fun i =>
      s!"<text x=\"{patternStarsX seed cx i}\" y=\"{patternStarsY seed cy i}\" font-size=\"18\" fill=\"#FFD700\" opacity=\"0.5\">★</text>"))
  else if p = "hearts" then
    joinSep "" ((List.range 7).map (fun i =>
      s!"<text x=\"{heartsX seed cx i}\" y=\"{heartsY seed cy i}\" font-size=\"16\" fill=\"#FF69B4\" opacity=\"0.4\">♥</text>"))
  else if p = "diamonds" then
    joinSep "" ((List.range 8).map (fun i =>
      s!"<text x=\"{diamondsX seed cx i}\" y=\"{diamondsY seed cy i}\" font-size=\"18\" fill=\"#00CED1\" opacity=\"0.35\">◆</text>"))
  else if p = "swirls" then
    joinSep "" ((List.range 4).map (fun i =>
      let r : Int := 100 - (i : Int) * 25
      s!"<circle cx=\"{cx}\" cy=\"{cy}\" r=\"{r}\" fill=\"none\" stroke=\"#000\" stroke-width=\"2\" opacity=\"0.08\" stroke-dasharray=\"15,10\"/>"))
  else if p = "gradient" then
    s!"<ellipse cx=\"{cx}\" cy=\"{cy}\" rx=\"110\" ry=\"115\" fill=\"url(#sky-gradient)\" opacity=\"0.25\"/>"
  else if p = "nebula" then
    s!"<ellipse cx=\"{cx-25}\" cy=\"{cy-15}\" rx=\"45\" ry=\"35\" fill=\"#FF00FF\" opacity=\"0.12\"/><ellipse cx=\"{cx+30}\" cy=\"{cy+25}\" rx=\"40\" ry=\"30\" fill=\"#00FFFF\" opacity=\"0.12\"/>"
  else if p = "lightning" then
    s!"<path d=\"M{cx-15} {cy-70} L{cx+15} {cy-10} L{cx} {cy-10} L{cx+30} {cy+50}\" stroke=\"#FFD700\" stroke-width=\"3\" fill=\"none\" opacity=\"0.5\"/>"
  else if p = "flames" then
    s!"<ellipse cx=\"{cx}\" cy=\"{cy+70}\" rx=\"45\" ry=\"25\" fill=\"#FF4500\" opacity=\"0.2\"/><ellipse cx=\"{cx}\" cy=\"{cy+60}\" rx=\"35\" ry=\"20\" fill=\"#FF6600\" opacity=\"0.15\"/>"
  else if p ∈ ["fractals", "aurora", "quantum", "cosmic_dust", "void"] then
    s!"<ellipse cx=\"{cx}\" cy=\"{cy}\" rx=\"100\" ry=\"105\" fill=\"url(#aurora-gradient)\" opacity=\"0.2\"/>"
  else ""

/-- The ear and head fragments of `_generate_body` (lines 216-224), which do
not depend on the pattern. -/
def bodyFixedPre (c : ColorTriple) (cx cy : Int) : List String :=
  ([(-85 : Int), 85].flatMap (fun dx =>
    [s!"<ellipse cx=\"{cx+dx}\" cy=\"{cy-60}\" rx=\"45\" ry=\"50\" fill=\"{c.main}\" filter=\"url(#shadow)\"/>",
     s!"<ellipse cx=\"{cx+dx}\" cy=\"{cy-60}\" rx=\"30\" ry=\"35\" fill=\"#FFB6C1\"/>",
     s!"<ellipse cx=\"{cx+dx}\" cy=\"{cy-55}\" rx=\"18\" ry=\"22\" fill=\"#FF9999\"/>"])) ++
  [s!"<ellipse cx=\"{cx}\" cy=\"{cy}\" rx=\"110\" ry=\"115\" fill=\"{c.main}\" filter=\"url(#shadow)\"/>",
   s!"<ellipse cx=\"{cx-20}\" cy=\"{cy-60}\" rx=\"50\" ry=\"30\" fill=\"{c.highlight}\" opacity=\"0.3\"/>"]

/-- The muzzle fragments of `_generate_body` (lines 231-232), which do not
depend on the pattern. -/
def bodyMuzzle (cx cy : Int) : List String :=
  [s!"<ellipse cx=\"{cx}\" cy=\"{cy+35}\" rx=\"70\" ry=\"60\" fill=\"#FFDAB9\"/>",
   s!"<ellipse cx=\"{cx}\" cy=\"{cy+50}\" rx=\"55\" ry=\"40\" fill=\"#DEB887\" opacity=\"0.3\"/>"]

/-- The fragment list of `_generate_body` (lines 209-234): ears, head, the
clipped pattern overlay when the pattern is neither `"solid"` nor `"none"`,
then the muzzle.  Unknown colors fall back to `BODY_COLORS["brown"]`. -/
def bodyParts (color p : String) (w h seed : Int) : List String :=
  let cx := w.fdiv 2
  let cy := h.fdiv 2
  let c := (BODY_COLORS color).getD brownTriple
  bodyFixedPre c cx cy ++
  (if p ∉ ["solid", "none"] then
    ["<g clip-path=\"url(#head-clip)\">" ++ _pattern p cx cy seed ++ "</g>"]
   else []) ++
  bodyMuzzle cx cy

/-- `_generate_body` (lines 209-234). -/
def _generate_body (color p : String) (w h seed : Int) : String :=
  joinSep "\n" (bodyParts color p w h seed)

/-- `_eyes` (lines 282-319). -/
def _eyes (expr : String) (lx rx ey : Int) : List String :=
  [s!"<ellipse cx=\"{lx}\" cy=\"{ey}\" rx=\"22\" ry=\"24\" fill=\"#000\" opacity=\"0.08\"/>",
   s!"<ellipse cx=\"{rx}\" cy=\"{ey}\" rx=\"22\" ry=\"24\" fill=\"#000\" opacity=\"0.08\"/>"] ++
  (if expr ∈ ["sleepy", "zen"] then
    [lx, rx].flatMap (fun x =>
      [s!"<ellipse cx=\"{x}\" cy=\"{ey}\" rx=\"18\" ry=\"8\" fill=\"white\"/>",
       s!"<ellipse cx=\"{x}\" cy=\"{ey+2}\" rx=\"10\" ry=\"5\" fill=\"#3D2314\"/>"])
  else if expr = "winking" then
    [s!"<ellipse cx=\"{lx}\" cy=\"{ey}\" rx=\"18\" ry=\"20\" fill=\"white\"/>",
     s!"<circle cx=\"{lx}\" cy=\"{ey}\" r=\"12\" fill=\"#3D2314\"/>",
     s!"<circle cx=\"{lx}\" cy=\"{ey}\" r=\"6\" fill=\"#000\"/>",
     s!"<circle cx=\"{lx+4}\" cy=\"{ey-4}\" r=\"4\" fill=\"white\"/>",
     s!"<path d=\"M{rx-15} {ey} Q{rx} {ey+8} {rx+15} {ey}\" stroke=\"#3D2314\" stroke-width=\"3\" fill=\"none\"/>"]
  else if expr ∈ ["surprised", "excited"] then
    [lx, rx].flatMap (fun x =>
      [s!"<ellipse cx=\"{x}\" cy=\"{ey}\" rx=\"20\" ry=\"24\" fill=\"white\"/>",
       s!"<circle cx=\"{x}\" cy=\"{ey}\" r=\"14\" fill=\"#3D2314\"/>",
       s!"<circle cx=\"{x}\" cy=\"{ey}\" r=\"8\" fill=\"#000\"/>",
       s!"<circle cx=\"{x+5}\" cy=\"{ey-5}\" r=\"5\" fill=\"white\"/>"])
  else if expr ∈ ["enlightened", "cosmic", "divine", "legendary"] then
    let glow_color := if expr = "legendary" then "#FF4500" else "#E6E6FA"
    let iris_color := if expr = "legendary" then "#FFD700" else "#9370DB"
    [lx, rx].flatMap (fun x =>
      [s!"<ellipse cx=\"{x}\" cy=\"{ey}\" rx=\"18\" ry=\"20\" fill=\"{glow_color}\" filter=\"url(#glow)\"/>",
       s!"<circle cx=\"{x}\" cy=\"{ey}\" r=\"10\" fill=\"{iris_color}\"/>",
       s!"<circle cx=\"{x}\" cy=\"{ey}\" r=\"4\" fill=\"#FFF\"/>"])
  else
    [lx, rx].flatMap (fun x =>
      [s!"<ellipse cx=\"{x}\" cy=\"{ey}\" rx=\"18\" ry=\"20\" fill=\"white\"/>",
       s!"<circle cx=\"{x}\" cy=\"{ey}\" r=\"12\" fill=\"#3D2314\"/>",
       s!"<circle cx=\"{x}\" cy=\"{ey}\" r=\"6\" fill=\"#000\"/>",
       s!"<circle cx=\"{x+4}\" cy=\"{ey-4}\" r=\"4\" fill=\"white\"/>"]))

/-- `_nose` (lines 321-330): a multi-line fragment, expression-independent. -/
def _nose (cx cy : Int) : String :=
  let ny := cy + 30
  s!"<g>\n            <ellipse cx=\"{cx}\" cy=\"{ny}\" rx=\"25\" ry=\"18\" fill=\"#8B4513\"/>\n            <ellipse cx=\"{cx}\" cy=\"{ny}\" rx=\"22\" ry=\"15\" fill=\"#A0522D\"/>\n            <ellipse cx=\"{cx-8}\" cy=\"{ny}\" rx=\"5\" ry=\"7\" fill=\"#5D2E0C\"/>\n            <ellipse cx=\"{cx+8}\" cy=\"{ny}\" rx=\"5\" ry=\"7\" fill=\"#5D2E0C\"/>\n        </g>"

/-- `_mouth` (lines 332-350). -/
def _mouth (expr : String) (cx cy : Int) : List String :=
  let my := cy + 60
  if expr ∈ ["happy", "excited"] then
    [s!"<path d=\"M{cx-30} {my} Q{cx} {my+25} {cx+30} {my}\" stroke=\"#5D2E0C\" stroke-width=\"4\" fill=\"none\"/>"]
  else if expr = "laughing" then
    [s!"<ellipse cx=\"{cx}\" cy=\"{my+5}\" rx=\"28\" ry=\"18\" fill=\"#8B0000\"/>",
     s!"<ellipse cx=\"{cx}\" cy=\"{my+12}\" rx=\"18\" ry=\"7\" fill=\"#FF6B6B\"/>"]
  else if expr = "surprised" then
    [s!"<ellipse cx=\"{cx}\" cy=\"{my+5}\" rx=\"16\" ry=\"22\" fill=\"#8B0000\"/>"]
  else if expr ∈ ["mischievous", "cool"] then
    [s!"<path d=\"M{cx-22} {my+5} Q{cx} {my} {cx+25} {my-8}\" stroke=\"#5D2E0C\" stroke-width=\"3\" fill=\"none\"/>"]
  else if expr ∈ ["wise", "zen", "enlightened", "cosmic", "divine"] then
    [s!"<path d=\"M{cx-22} {my} Q{cx} {my+8} {cx+22} {my}\" stroke=\"#5D2E0C\" stroke-width=\"2\" fill=\"none\"/>"]
  else
    [s!"<line x1=\"{cx-18}\" y1=\"{my}\" x2=\"{cx+18}\" y2=\"{my}\" stroke=\"#5D2E0C\" stroke-width=\"2\"/>"]

/-- `_brows` (lines 352-366). -/
def _brows (expr : String) (lx rx ey : Int) : List String :=
  let byv := ey - 30
  if expr ∈ ["surprised", "excited"] then
    [s!"<path d=\"M{lx-15} {byv+5} Q{lx} {byv-5} {lx+15} {byv+5}\" stroke=\"#5D2E0C\" stroke-width=\"3\" fill=\"none\"/>",
     s!"<path d=\"M{rx-15} {byv+5} Q{rx} {byv-5} {rx+15} {byv+5}\" stroke=\"#5D2E0C\" stroke-width=\"3\" fill=\"none\"/>"]
  else if expr ∈ ["mischievous", "cool"] then
    [s!"<line x1=\"{lx-12}\" y1=\"{byv}\" x2=\"{lx+12}\" y2=\"{byv+6}\" stroke=\"#5D2E0C\" stroke-width=\"3\"/>",
     s!"<line x1=\"{rx-12}\" y1=\"{byv+6}\" x2=\"{rx+12}\" y2=\"{byv}\" stroke=\"#5D2E0C\" stroke-width=\"3\"/>"]
  else if expr ∈ ["wise", "zen"] then
    [s!"<line x1=\"{lx-12}\" y1=\"{byv+3}\" x2=\"{lx+12}\" y2=\"{byv+3}\" stroke=\"#5D2E0C\" stroke-width=\"2\"/>",
     s!"<line x1=\"{rx-12}\" y1=\"{byv+3}\" x2=\"{rx+12}\" y2=\"{byv+3}\" stroke=\"#5D2E0C\" stroke-width=\"2\"/>"]
  else []

/-- `_generate_face` (lines 263-280): eyes, nose, mouth, brows. -/
def _generate_face (expr : String) (w h : Int) : String :=
  let cx := w.fdiv 2
  let cy := h.fdiv 2
  let ey := cy - 15
  let sp : Int := 38
  let lx := cx - sp
  let rx := cx + sp
  joinSep "\n" (_eyes expr lx rx ey ++ [_nose cx cy] ++ _mouth expr cx cy ++ _brows expr lx rx ey)

/-- The accessory dict built inside `_generate_accessory` (lines 373-390);
`none` stands for an identifier absent from the dict. -/
def accessoryFragment (acc : String) (cx cy : Int) : Option String :=
  match acc with
  | "none" => some ""
  | "simple_hat" => some (s!"<rect x=\"{cx-45}\" y=\"{cy-145}\" width=\"90\" height=\"18\" rx=\"3\" fill=\"#8B0000\"/><rect x=\"{cx-55}\" y=\"{cy-130}\" width=\"110\" height=\"8\" fill=\"#8B0000\"/>")
  | "bandana" => some (s!"<path d=\"M{cx-90} {cy-80} Q{cx} {cy-110} {cx+90} {cy-80}\" stroke=\"#E74C3C\" stroke-width=\"12\" fill=\"none\"/><polygon points=\"{cx-95},{cy-75} {cx-110},{cy-40} {cx-85},{cy-50}\" fill=\"#E74C3C\"/>")
  | "bow" => some (s!"<ellipse cx=\"{cx-70}\" cy=\"{cy-70}\" rx=\"20\" ry=\"15\" fill=\"#FF69B4\"/><ellipse cx=\"{cx-70}\" cy=\"{cy-70}\" rx=\"8\" ry=\"8\" fill=\"#FF1493\"/><polygon points=\"{cx-70},{cy-85} {cx-55},{cy-70} {cx-70},{cy-55}\" fill=\"#FF69B4\"/>")
  | "sunglasses" => some (s!"<rect x=\"{cx-58}\" y=\"{cy-25}\" width=\"38\" height=\"28\" rx=\"4\" fill=\"#000\" opacity=\"0.85\"/><rect x=\"{cx+20}\" y=\"{cy-25}\" width=\"38\" height=\"28\" rx=\"4\" fill=\"#000\" opacity=\"0.85\"/><line x1=\"{cx-20}\" y1=\"{cy-11}\" x2=\"{cx+20}\" y2=\"{cy-11}\" stroke=\"#000\" stroke-width=\"3\"/><line x1=\"{cx-58}\" y1=\"{cy-11}\" x2=\"{cx-80}\" y2=\"{cy-20}\" stroke=\"#000\" stroke-width=\"2\"/><line x1=\"{cx+58}\" y1=\"{cy-11}\" x2=\"{cx+80}\" y2=\"{cy-20}\" stroke=\"#000\" stroke-width=\"2\"/>")
  | "crown" => some (s!"<polygon points=\"{cx-35},{cy-130} {cx-20},{cy-155} {cx},{cy-135} {cx+20},{cy-155} {cx+35},{cy-130}\" fill=\"#FFD700\" stroke=\"#DAA520\" stroke-width=\"2\"/><rect x=\"{cx-35}\" y=\"{cy-130}\" width=\"70\" height=\"12\" fill=\"#FFD700\" stroke=\"#DAA520\" stroke-width=\"2\"/>")
  | "headphones" => some (s!"<path d=\"M{cx-75} {cy-30} Q{cx-75} {cy-100} {cx} {cy-110} Q{cx+75} {cy-100} {cx+75} {cy-30}\" stroke=\"#333\" stroke-width=\"8\" fill=\"none\"/><rect x=\"{cx-85}\" y=\"{cy-45}\" width=\"25\" height=\"40\" rx=\"5\" fill=\"#333\"/><rect x=\"{cx+60}\" y=\"{cy-45}\" width=\"25\" height=\"40\" rx=\"5\" fill=\"#333\"/>")
  | "monocle" => some (s!"<circle cx=\"{cx+38}\" cy=\"{cy-15}\" r=\"22\" fill=\"none\" stroke=\"#DAA520\" stroke-width=\"3\"/><line x1=\"{cx+60}\" y1=\"{cy-15}\" x2=\"{cx+90}\" y2=\"{cy+40}\" stroke=\"#DAA520\" stroke-width=\"2\"/>")
  | "halo" => some (s!"<ellipse cx=\"{cx}\" cy=\"{cy-150}\" rx=\"55\" ry=\"12\" fill=\"none\" stroke=\"#FFD700\" stroke-width=\"6\" opacity=\"0.85\" filter=\"url(#glow)\"/>")
  | "horns" => some (s!"<path d=\"M{cx-60} {cy-90} Q{cx-80} {cy-150} {cx-50} {cy-160}\" stroke=\"#8B0000\" stroke-width=\"12\" fill=\"none\" stroke-linecap=\"round\"/><path d=\"M{cx+60} {cy-90} Q{cx+80} {cy-150} {cx+50} {cy-160}\" stroke=\"#8B0000\" stroke-width=\"12\" fill=\"none\" stroke-linecap=\"round\"/>")
  | "wizard_hat" => some (s!"<polygon points=\"{cx},{cy-190} {cx-55},{cy-115} {cx+55},{cy-115}\" fill=\"#4B0082\"/><ellipse cx=\"{cx}\" cy=\"{cy-115}\" rx=\"65\" ry=\"12\" fill=\"#4B0082\"/><text x=\"{cx}\" y=\"{cy-145}\" font-size=\"20\" fill=\"#FFD700\" text-anchor=\"middle\">★</text>")
  | "golden_crown" => some (s!"<polygon points=\"{cx-45},{cy-130} {cx-30},{cy-165} {cx-10},{cy-140} {cx+10},{cy-165} {cx+30},{cy-140} {cx+45},{cy-165} {cx+45},{cy-115} {cx-45},{cy-115}\" fill=\"#FFD700\" stroke=\"#B8860B\" stroke-width=\"3\"/><circle cx=\"{cx}\" cy=\"{cy-155}\" r=\"8\" fill=\"#E74C3C\"/><circle cx=\"{cx-25}\" cy=\"{cy-145}\" r=\"5\" fill=\"#3498DB\"/><circle cx=\"{cx+25}\" cy=\"{cy-145}\" r=\"5\" fill=\"#2ECC71\"/>")
  | "diamond_chain" => some (s!"<path d=\"M{cx-80} {cy+80} Q{cx} {cy+100} {cx+80} {cy+80}\" stroke=\"#C0C0C0\" stroke-width=\"4\" fill=\"none\"/><polygon points=\"{cx},{cy+85} {cx+12},{cy+100} {cx},{cy+115} {cx-12},{cy+100}\" fill=\"#00CED1\" stroke=\"#87CEEB\" stroke-width=\"2\"/>")
  | "jetpack" => some (s!"<rect x=\"{cx-50}\" y=\"{cy+60}\" width=\"20\" height=\"50\" rx=\"5\" fill=\"#555\"/><rect x=\"{cx+30}\" y=\"{cy+60}\" width=\"20\" height=\"50\" rx=\"5\" fill=\"#555\"/><ellipse cx=\"{cx-40}\" cy=\"{cy+120}\" rx=\"8\" ry=\"15\" fill=\"#FF4500\" opacity=\"0.8\"/><ellipse cx=\"{cx+40}\" cy=\"{cy+120}\" rx=\"8\" ry=\"15\" fill=\"#FF4500\" opacity=\"0.8\"/>")
  | "wings" => some (s!"<path d=\"M{cx-100} {cy} Q{cx-150} {cy-80} {cx-180} {cy+20} Q{cx-140} {cy+10} {cx-100} {cy+30}\" fill=\"#E6E6FA\" opacity=\"0.8\"/><path d=\"M{cx+100} {cy} Q{cx+150} {cy-80} {cx+180} {cy+20} Q{cx+140} {cy+10} {cx+100} {cy+30}\" fill=\"#E6E6FA\" opacity=\"0.8\"/>")
  | "laser_eyes" => some (s!"<line x1=\"{cx-38}\" y1=\"{cy-15}\" x2=\"{cx-150}\" y2=\"{cy+50}\" stroke=\"#FF0000\" stroke-width=\"4\" opacity=\"0.7\"/><line x1=\"{cx+38}\" y1=\"{cy-15}\" x2=\"{cx+150}\" y2=\"{cy+50}\" stroke=\"#FF0000\" stroke-width=\"4\" opacity=\"0.7\"/>")
  | _ => none

/-- `_generate_accessory` (lines 368-391): dict lookup with `""` as the
default for unrecognized identifiers. -/
def _generate_accessory (acc : String) (w h : Int) : String :=
  (accessoryFragment acc (w.fdiv 2) (h.fdiv 2)).getD ""

/-- `_generate_special_back` (lines 393-403): effects drawn behind the body;
unmatched identifiers yield `""`. -/
def _generate_special_back (sp : String) (w h : Int) : String :=
  let cx := w.fdiv 2
  let cy := h.fdiv 2
  if sp = "aura" then
    s!"<circle cx=\"{cx}\" cy=\"{cy}\" r=\"160\" fill=\"none\" stroke=\"#9400D3\" stroke-width=\"4\" opacity=\"0.3\"/><circle cx=\"{cx}\" cy=\"{cy}\" r=\"175\" fill=\"none\" stroke=\"#4B0082\" stroke-width=\"2\" opacity=\"0.2\"/>"
  else if sp = "energy" then
    s!"<circle cx=\"{cx}\" cy=\"{cy}\" r=\"165\" fill=\"none\" stroke=\"#00FFFF\" stroke-width=\"3\" opacity=\"0.25\" stroke-dasharray=\"20,10\"/>"
  else if sp ∈ ["transcendent", "godlike", "mythical"] then
    s!"<circle cx=\"{cx}\" cy=\"{cy}\" r=\"180\" fill=\"url(#multiverse-gradient)\" opacity=\"0.15\"/>"
  else ""

/-- `_generate_special_front` (lines 405-424): effects drawn in front;
unmatched identifiers yield `""`. -/
def _generate_special_front (sp : String) (w h seed : Int) : String :=
  let cx := w.fdiv 2
  let cy := h.fdiv 2
  if sp = "sparkles" then
    joinSep "" ([(cx-90, cy-90), (cx+90, cy-90), (cx-90, cy+90), (cx+90, cy+90), (cx, cy-130)].map
      (fun q => s!"<text x=\"{q.1}\" y=\"{q.2}\" font-size=\"24\" fill=\"#FFD700\">✦</text>"))
  else if sp = "glow" then
    s!"<circle cx=\"{cx}\" cy=\"{cy}\" r=\"135\" fill=\"none\" stroke=\"#FFD700\" stroke-width=\"6\" opacity=\"0.25\"/>"
  else if sp = "shadow" then
    s!"<ellipse cx=\"{cx}\" cy=\"{cy+140}\" rx=\"100\" ry=\"20\" fill=\"#000\" opacity=\"0.2\"/>"
  else if sp = "particles" then
    joinSep "" ((List.range 12).map (fun (i : Nat) =>
      s!"<circle cx=\"{particlesX seed cx i}\" cy=\"{particlesY seed cy i}\" r=\"3\" fill=\"#FFD700\" opacity=\"0.6\"/>"))
  else if sp = "transcendent" then
    s!"<circle cx=\"{cx}\" cy=\"{cy}\" r=\"145\" fill=\"none\" stroke=\"#FFD700\" stroke-width=\"4\" opacity=\"0.4\" filter=\"url(#glow)\"/>"
  else if sp = "godlike" then
    s!"<circle cx=\"{cx}\" cy=\"{cy}\" r=\"150\" fill=\"none\" stroke=\"#FFF\" stroke-width=\"3\" opacity=\"0.5\" filter=\"url(#glow)\"/><text x=\"{cx}\" y=\"{cy-170}\" font-size=\"36\" fill=\"#FFD700\" text-anchor=\"middle\" filter=\"url(#glow)\">♔</text>"
  else if sp = "mythical" then
    s!"<circle cx=\"{cx}\" cy=\"{cy}\" r=\"155\" fill=\"none\" stroke=\"#FF00FF\" stroke-width=\"3\" opacity=\"0.4\" filter=\"url(#glow)\"/><circle cx=\"{cx}\" cy=\"{cy}\" r=\"165\" fill=\"none\" stroke=\"#00FFFF\" stroke-width=\"2\" opacity=\"0.3\"/>"
  else ""

/-- The rarity color/label pair computed by `_generate_badge` (lines 432-439):
an inclusive-lower-bound threshold chain on the rarity score. -/
def badgeLabel (score : ℚ) : String × String :=
  if score ≥ 80 then ("#FFD700", "LEGENDARY")
  else if score ≥ 60 then ("#9370DB", "RARE")
  else if score ≥ 40 then ("#4ECDC4", "UNCOMMON")
  else ("#A0A0A0", "COMMON")

/-- `_generate_badge` (lines 426-448): the rarity badge and the generation
tag.  `h` is accepted and unused, as in the source. -/
def _generate_badge (dna : MonkeyDNA) (w h : Int) : String :=
  let score := dna.get_rarity_score
  let gen := dna.generation
  let cl := badgeLabel score
  let color := cl.1
  let label := cl.2
  s!"<g transform=\"translate({w-75}, 15)\">\n            <rect width=\"65\" height=\"22\" rx=\"4\" fill=\"{color}\" opacity=\"0.9\"/>\n            <text x=\"32\" y=\"15\" font-size=\"8\" fill=\"#FFF\" text-anchor=\"middle\" font-family=\"sans-serif\" font-weight=\"bold\">{label}</text>\n        </g>\n        <g transform=\"translate(10, 15)\">\n            <rect width=\"45\" height=\"22\" rx=\"4\" fill=\"#333\" opacity=\"0.8\"/>\n            <text x=\"22\" y=\"15\" font-size=\"9\" fill=\"#FFF\" text-anchor=\"middle\" font-family=\"sans-serif\">Gen {gen}</text>\n        </g>"

/-- The x coordinate of the head-clip ellipse hard-coded in `_generate_defs`
(line 132). -/
def clipCx : Int := 200

/-- The y coordinate of the head-clip ellipse hard-coded in `_generate_defs`
(line 132). -/
def clipCy : Int := 200

/-- The filter and gradient definitions of `_generate_defs` (lines 84-131),
up to and including the indentation of the clip-path line. -/
def defsHeader : String :=
  "<defs>\n    <filter id=\"shadow\" x=\"-20%\" y=\"-20%\" width=\"140%\" height=\"140%\">\n        <feDropShadow dx=\"2\" dy=\"4\" stdDeviation=\"3\" flood-opacity=\"0.3\"/>\n    </filter>\n" ++
  "    <filter id=\"glow\" x=\"-50%\" y=\"-50%\" width=\"200%\" height=\"200%\">\n        <feGaussianBlur stdDeviation=\"8\" result=\"blur\"/>\n        <feMerge><feMergeNode in=\"blur\"/><feMergeNode in=\"SourceGraphic\"/></feMerge>\n    </filter>\n" ++
  "    <linearGradient id=\"rainbow-body\" x1=\"0%\" y1=\"0%\" x2=\"100%\" y2=\"100%\">\n        <stop offset=\"0%\" stop-color=\"#FF6B6B\"/><stop offset=\"25%\" stop-color=\"#FFE66D\"/>\n        <stop offset=\"50%\" stop-color=\"#4ECDC4\"/><stop offset=\"75%\" stop-color=\"#45B7D1\"/>\n        <stop offset=\"100%\" stop-color=\"#DDA0DD\"/>\n    </linearGradient>\n" ++
  "    <radialGradient id=\"galaxy-body\" cx=\"30%\" cy=\"30%\">\n        <stop offset=\"0%\" stop-color=\"#E6E6FA\"/><stop offset=\"50%\" stop-color=\"#9370DB\"/>\n        <stop offset=\"100%\" stop-color=\"#1A0033\"/>\n    </radialGradient>\n" ++
  "    <linearGradient id=\"holo-body\" x1=\"0%\" y1=\"0%\" x2=\"100%\" y2=\"100%\">\n        <stop offset=\"0%\" stop-color=\"#FF00FF\"/><stop offset=\"50%\" stop-color=\"#00FFFF\"/>\n        <stop offset=\"100%\" stop-color=\"#FFFF00\"/>\n    </linearGradient>\n" ++
  "    <linearGradient id=\"sky-gradient\" x1=\"0%\" y1=\"0%\" x2=\"0%\" y2=\"100%\">\n        <stop offset=\"0%\" stop-color=\"#87CEEB\"/><stop offset=\"100%\" stop-color=\"#E0F4FF\"/>\n    </linearGradient>\n" ++
  "    <linearGradient id=\"grass-gradient\" x1=\"0%\" y1=\"0%\" x2=\"0%\" y2=\"100%\">\n        <stop offset=\"0%\" stop-color=\"#90EE90\"/><stop offset=\"100%\" stop-color=\"#228B22\"/>\n    </linearGradient>\n" ++
  "    <linearGradient id=\"sunset-gradient\" x1=\"0%\" y1=\"0%\" x2=\"0%\" y2=\"100%\">\n        <stop offset=\"0%\" stop-color=\"#FF6B6B\"/><stop offset=\"50%\" stop-color=\"#FFE66D\"/>\n        <stop offset=\"100%\" stop-color=\"#4ECDC4\"/>\n    </linearGradient>\n" ++
  "    <linearGradient id=\"aurora-gradient\" x1=\"0%\" y1=\"0%\" x2=\"100%\" y2=\"100%\">\n        <stop offset=\"0%\" stop-color=\"#0D1B2A\"/><stop offset=\"30%\" stop-color=\"#00FF7F\"/>\n        <stop offset=\"70%\" stop-color=\"#FF00FF\"/><stop offset=\"100%\" stop-color=\"#0D1B2A\"/>\n    </linearGradient>\n" ++
  "    <radialGradient id=\"multiverse-gradient\" cx=\"50%\" cy=\"50%\">\n        <stop offset=\"0%\" stop-color=\"#FFD700\"/><stop offset=\"40%\" stop-color=\"#FF00FF\"/>\n        <stop offset=\"70%\" stop-color=\"#00FFFF\"/><stop offset=\"100%\" stop-color=\"#000\"/>\n    </radialGradient>\n" ++
  "    <linearGradient id=\"rift-gradient\" x1=\"0%\" y1=\"0%\" x2=\"100%\" y2=\"100%\">\n        <stop offset=\"0%\" stop-color=\"#000\"/><stop offset=\"30%\" stop-color=\"#9400D3\"/>\n        <stop offset=\"50%\" stop-color=\"#00FFFF\"/><stop offset=\"70%\" stop-color=\"#9400D3\"/>\n        <stop offset=\"100%\" stop-color=\"#000\"/>\n    </linearGradient>\n" ++
  "    <linearGradient id=\"heaven-gradient\" x1=\"0%\" y1=\"0%\" x2=\"0%\" y2=\"100%\">\n        <stop offset=\"0%\" stop-color=\"#FFF\"/><stop offset=\"50%\" stop-color=\"#FFD700\" stop-opacity=\"0.3\"/>\n        <stop offset=\"100%\" stop-color=\"#F0F8FF\"/>\n    </linearGradient>\n    "

/-- `_generate_defs` (lines 81-133): a constant fragment that takes no
arguments, so in particular it does not depend on the canvas size. -/
def _generate_defs : String :=
  defsHeader ++
  s!"<clipPath id=\"head-clip\"><ellipse cx=\"{clipCx}\" cy=\"{clipCy}\" rx=\"110\" ry=\"115\"/></clipPath>" ++
  "\n</defs>"

/-- The value of the first (up to) 8 hex digits of a fingerprint, high digit
first: Python's `int(s[:8], 16)` on a hex string. -/
def hexVal (l : List (Fin 16)) : Nat := l.foldl (fun acc d => 16 * acc + d.val) 0

/-- The seed derivation of `generate_svg` (line 65):
`int(dna.dna_hash[:8], 16) if dna.dna_hash else 12345`. -/
def seedOf (dna : MonkeyDNA) : Int :=
  if dna.dna_hash.isEmpty then 12345 else (hexVal (dna.dna_hash.take 8) : Int)

/-- The `svg_parts` list of `generate_svg` (lines 67-78), in the source's
fixed order. -/
def svgParts (dna : MonkeyDNA) (w h : Int) : List String :=
  let seed := seedOf dna
  [s!"<svg width=\"{w}\" height=\"{h}\" viewBox=\"0 0 {w} {h}\" xmlns=\"http://www.w3.org/2000/svg\">",
   _generate_defs,
   _generate_background dna.background w h seed,
   _generate_special_back dna.special w h,
   _generate_body dna.body_color dna.pattern w h seed,
   _generate_face dna.face_expression w h,
   _generate_accessory dna.accessory w h,
   _generate_special_front dna.special w h seed,
   _generate_badge dna w h,
   "</svg>"]

/-- `generate_svg` (lines 54-79): the full document,
`"\n".join(svg_parts)`. -/
def generate_svg (dna : MonkeyDNA) (w h : Int) : String :=
  joinSep "\n" (svgParts dna w h)

/-- `generate_thumbnail` (lines 450-453): the identical pipeline on a square
canvas. -/
def generate_thumbnail (dna : MonkeyDNA) (size : Int) : String :=
  generate_svg dna size size

/-- A sample DNA used to instantiate hypotheses: special effect `"aura"` and
accessory `"crown"` are both set. -/
def dnaAura : MonkeyDNA :=
  ⟨"brown", "happy", "crown", "solid", "white", "aura", 0, [], 10⟩

/-- A sample DNA with the fingerprint `"1a2b3c4d"`. -/
def dnaHex : MonkeyDNA :=
  ⟨"blue", "happy", "sunglasses", "stripes", "space", "glow", 3,
   [1, 10, 2, 11, 3, 12, 4, 13], 72⟩

/-! ## Helper lemmas -/

/-- Bounding the hex fold: starting from `acc`, folding a digit list stays
below `16 ^ length * (acc + 1)`. -/
theorem hexVal_foldl_lt (l : List (Fin 16)) :
    ∀ acc : Nat, l.foldl (fun a d => 16 * a + d.val) acc < 16 ^ l.length * (acc + 1) := by
  induction l with
  | nil => intro acc; simp
  | cons d t ih =>
    intro acc
    have h1 := ih (16 * acc + d.val)
    have h2 : 16 * acc + d.val + 1 ≤ 16 * (acc + 1) := by
      have := d.isLt
      omega
    calc (d :: t).foldl (fun a e => 16 * a + e.val) acc
        = t.foldl (fun a e => 16 * a + e.val) (16 * acc + d.val) := rfl
      _ < 16 ^ t.length * (16 * acc + d.val + 1) := h1
      _ ≤ 16 ^ t.length * (16 * (acc + 1)) := Nat.mul_le_mul_left _ h2
      _ = 16 ^ (d :: t).length * (acc + 1) := by
          simp only [List.length_cons, pow_succ]
          ring

/-- The value of a hex digit list is below `16 ^ length`. -/
theorem hexVal_lt (l : List (Fin 16)) : hexVal l < 16 ^ l.length := by
  calc hexVal l = l.foldl (fun a e => 16 * a + e.val) 0 := rfl
    _ < 16 ^ l.length * (0 + 1) := hexVal_foldl_lt l 0
    _ = 16 ^ l.length := by ring

/-! ## Claim theorems -/

/-- Claim C1: rendering is deterministic.  `generate_svg` is a pure function
of the DNA value and the requested dimensions, so calling it twice with the
same DNA, width and height yields byte-identical output.  The embedding is
faithful on this point: the Python renderer reads no clock, no random state
and no mutable global, so the whole pipeline is a function of its inputs. -/
theorem generate_svg_deterministic (dna : MonkeyDNA) (w h : Int) :
    generate_svg dna w h = generate_svg dna w h := rfl

/-- Claim C2: the serialized document assembles the layer fragments in the
fixed order definitions, background, special-back, body, face, accessory,
special-front, badge; so for a DNA whose special effect and accessory both
produce markup, the special-back markup appears before the body markup and
the special-front and badge markup appear after the accessory markup. -/
theorem layer_order (dna : MonkeyDNA) (w h : Int)
    (hsb : _generate_special_back dna.special w h ≠ "")
    (hacc : _generate_accessory dna.accessory w h ≠ "") :
    generate_svg dna w h =
      s!"<svg width=\"{w}\" height=\"{h}\" viewBox=\"0 0 {w} {h}\" xmlns=\"http://www.w3.org/2000/svg\">" ++ "\n" ++
      _generate_defs ++ "\n" ++
      _generate_background dna.background w h (seedOf dna) ++ "\n" ++
      _generate_special_back dna.special w h ++ "\n" ++
      _generate_body dna.body_color dna.pattern w h (seedOf dna) ++ "\n" ++
      _generate_face dna.face_expression w h ++ "\n" ++
      _generate_accessory dna.accessory w h ++ "\n" ++
      _generate_special_front dna.special w h (seedOf dna) ++ "\n" ++
      _generate_badge dna w h ++ "\n" ++ "</svg>" := by
  simp [generate_svg, svgParts, joinSep, String.append_assoc]

/-- Claim C2 witness: the sample DNA `dnaAura` has special effect `"aura"`
and accessory `"crown"`, both rendering non-empty markup, and its document
decomposes in the fixed layer order. -/
theorem layer_order_witness :
    _generate_special_back dnaAura.special 400 400 ≠ "" ∧
    _generate_accessory dnaAura.accessory 400 400 ≠ "" ∧
    generate_svg dnaAura 400 400 =
      s!"<svg width=\"{(400 : Int)}\" height=\"{(400 : Int)}\" viewBox=\"0 0 {(400 : Int)} {(400 : Int)}\" xmlns=\"http://www.w3.org/2000/svg\">" ++ "\n" ++
      _generate_defs ++ "\n" ++
      _generate_background dnaAura.background 400 400 (seedOf dnaAura) ++ "\n" ++
      _generate_special_back dnaAura.special 400 400 ++ "\n" ++
      _generate_body dnaAura.body_color dnaAura.pattern 400 400 (seedOf dnaAura) ++ "\n" ++
      _generate_face dnaAura.face_expression 400 400 ++ "\n" ++
      _generate_accessory dnaAura.accessory 400 400 ++ "\n" ++
      _generate_special_front dnaAura.special 400 400 (seedOf dnaAura) ++ "\n" ++
      _generate_badge dnaAura 400 400 ++ "\n" ++ "</svg>" :=
  ⟨by decide, by decide, layer_order dnaAura 400 400 (by decide) (by decide)⟩

/-- Claim C3: the pipeline is total (each embedded renderer is a total Lean
function) and every unrecognized trait-value identifier resolves to its
documented default: an unknown body color renders with the brown triple, an
unknown background renders the solid white rect, and unknown accessory and
special-effect identifiers emit no fragment in any slot. -/
theorem fallback_defaults (c b acc sp p : String) (w h seed : Int)
    (hc : BODY_COLORS c = none)
    (hb : BACKGROUNDS b = none)
    (ha : accessoryFragment acc (w.fdiv 2) (h.fdiv 2) = none)
    (hs : sp ∉ ["aura", "energy", "transcendent", "godlike", "mythical",
                "sparkles", "glow", "shadow", "particles"]) :
    _generate_body c p w h seed = _generate_body "brown" p w h seed ∧
    _generate_background b w h seed = _generate_background "white" w h seed ∧
    _generate_accessory acc w h = "" ∧
    _generate_special_back sp w h = "" ∧
    _generate_special_front sp w h seed = "" := by
  simp only [List.mem_cons, List.not_mem_nil, or_false, not_or] at hs
  obtain ⟨n1, n2, n3, n4, n5, n6, n7, n8, n9⟩ := hs
  refine ⟨?_, ?_, ?_, ?_, ?_⟩
  · simp only [_generate_body, bodyParts, hc]
    rfl
  · simp only [_generate_background, hb]
    rfl
  · simp [_generate_accessory, ha]
  · simp [_generate_special_back, n1, n2, n3, n4, n5]
  · simp [_generate_special_front, n3, n4, n5, n6, n7, n8, n9]

/-- Claim C3 witness: concrete unknown identifiers in every category resolve
to the documented defaults. -/
theorem fallback_defaults_witness :
    BODY_COLORS "chartreuse" = none ∧
    BACKGROUNDS "nether" = none ∧
    accessoryFragment "cape" ((400 : Int).fdiv 2) ((400 : Int).fdiv 2) = none ∧
    ("banana" : String) ∉ ["aura", "energy", "transcendent", "godlike", "mythical",
                           "sparkles", "glow", "shadow", "particles"] ∧
    (_generate_body "chartreuse" "solid" 400 400 7 = _generate_body "brown" "solid" 400 400 7 ∧
     _generate_background "nether" 400 400 7 = _generate_background "white" 400 400 7 ∧
     _generate_accessory "cape" 400 400 = "" ∧
     _generate_special_back "banana" 400 400 = "" ∧
     _generate_special_front "banana" 400 400 7 = "") ∧
    _generate_background "nether" 400 400 7 = "<rect width=\"400\" height=\"400\" fill=\"#F8F9FA\"/>" :=
  ⟨rfl, rfl, rfl, by decide,
   fallback_defaults "chartreuse" "nether" "cape" "banana" "solid" 400 400 7 rfl rfl rfl (by decide),
   by decide⟩

/-- Claim C4: the badge maps the rarity score with inclusive lower bounds:
at least 80 is LEGENDARY in gold, at least 60 (below 80) is RARE in purple,
at least 40 (below 60) is UNCOMMON in teal, below 40 is COMMON in gray; in
particular 85, 65, 45 and 10 map to the four tiers and the boundary scores
80, 60 and 40 map to the higher tier. -/
theorem badge_thresholds :
    (∀ score : ℚ, 80 ≤ score → badgeLabel score = ("#FFD700", "LEGENDARY")) ∧
    (∀ score : ℚ, 60 ≤ score → score < 80 → badgeLabel score = ("#9370DB", "RARE")) ∧
    (∀ score : ℚ, 40 ≤ score → score < 60 → badgeLabel score = ("#4ECDC4", "UNCOMMON")) ∧
    (∀ score : ℚ, score < 40 → badgeLabel score = ("#A0A0A0", "COMMON")) ∧
    badgeLabel 85 = ("#FFD700", "LEGENDARY") ∧ badgeLabel 65 = ("#9370DB", "RARE") ∧
    badgeLabel 45 = ("#4ECDC4", "UNCOMMON") ∧ badgeLabel 10 = ("#A0A0A0", "COMMON") ∧
    badgeLabel 80 = ("#FFD700", "LEGENDARY") ∧ badgeLabel 60 = ("#9370DB", "RARE") ∧
    badgeLabel 40 = ("#4ECDC4", "UNCOMMON") := by
  refine ⟨?_, ?_, ?_, ?_, by decide, by decide, by decide, by decide,
          by decide, by decide, by decide⟩
  · intro s hs
    simp [badgeLabel, ge_iff_le, hs]
  · intro s h1 h2
    simp [badgeLabel, ge_iff_le, h1, not_le.mpr h2]
  · intro s h1 h2
    have h3 : ¬(80 : ℚ) ≤ s := by linarith
    simp [badgeLabel, ge_iff_le, h1, not_le.mpr h2, h3]
  · intro s h1
    have h2 : ¬(80 : ℚ) ≤ s := by linarith
    have h3 : ¬(60 : ℚ) ≤ s := by linarith
    simp [badgeLabel, ge_iff_le, not_le.mpr h1, h2, h3]

/-- Claim C4 witness: the LEGENDARY threshold applied at the concrete score
85. -/
theorem badge_thresholds_witness :
    (80 : ℚ) ≤ 85 ∧ badgeLabel 85 = ("#FFD700", "LEGENDARY") :=
  ⟨by decide, badge_thresholds.1 85 (by decide)⟩

/-- Claim C5: the placement seed equals the value of the first 8 hex digits
of the fingerprint when the fingerprint is non-empty and the fixed constant
12345 when it is empty, and it is always non-negative and below
16 ^ 8 = 4294967296. -/
theorem seed_stability (dna : MonkeyDNA) :
    (dna.dna_hash = [] → seedOf dna = 12345) ∧
    (dna.dna_hash ≠ [] → seedOf dna = (hexVal (dna.dna_hash.take 8) : Int)) ∧
    0 ≤ seedOf dna ∧ seedOf dna < 4294967296 := by
  refine ⟨fun he => by simp [seedOf, he], fun hne => by simp [seedOf, List.isEmpty_iff, hne], ?_, ?_⟩
  · unfold seedOf
    split
    · norm_num
    · exact Int.natCast_nonneg _
  · unfold seedOf
    split
    · norm_num
    · have h1 : hexVal (dna.dna_hash.take 8) < 16 ^ (dna.dna_hash.take 8).length :=
        hexVal_lt _
      have h2 : (dna.dna_hash.take 8).length ≤ 8 := by
        simp [List.length_take]
      have h3 : (16 : Nat) ^ (dna.dna_hash.take 8).length ≤ 16 ^ 8 :=
        Nat.pow_le_pow_right (by norm_num) h2
      have h4 := lt_of_lt_of_le h1 h3
      norm_num at h4
      exact_mod_cast h4

/-- Claim C5 witness: on `dnaHex`, whose fingerprint is `"1a2b3c4d"`, the
seed is the value of the first 8 hex digits, 0x1a2b3c4d = 439041101. -/
theorem seed_stability_witness :
    dnaHex.dna_hash ≠ [] ∧
    seedOf dnaHex = (hexVal (dnaHex.dna_hash.take 8) : Int) ∧
    seedOf dnaHex = 439041101 :=
  ⟨by decide, (seed_stability dnaHex).2.1 (by decide), by decide⟩

/-- Claim C6 counterexample: the spots-overlay x offset at seed 1 and element
index 1 is computed by the code from `seed * i` and differs from the claimed
`(seed * (i+1) * multiplier) mod bound` placement (117 versus 124). -/
theorem placement_formula_counterexample :
    spotsX 1 200 1 ≠ 200 + place 1 1 7 180 - 90 := by decide

/-- Claim C6 (amended): the scene stars, buildings and bubbles families place
element `i` by `(seed * (i+1) * multiplier) mod bound`, while the trees and
lava scene families, the spots, stars, hearts and diamonds pattern overlays,
and the particles special effect use the unshifted index,
`(seed * i * multiplier) mod bound`, each with its own fixed constants. -/
theorem placement_formulas (seed i w h cx cy : Int) :
    (starsX seed i w = place seed i 7 w ∧ starsY seed i h = place seed i 13 h) ∧
    (buildingsBh seed i = 70 + place seed i 1 90) ∧
    (bubblesX seed i w = place seed i 17 w ∧ bubblesY seed i h = place seed i 23 h) ∧
    (treesTh seed i = 50 + placeIdx seed i 1 30) ∧
    (lavaX seed i w = 30 + placeIdx seed i 11 (w - 60)) ∧
    (spotsX seed cx i = cx + placeIdx seed i 7 180 - 90 ∧
     spotsY seed cy i = cy + placeIdx seed i 11 180 - 90) ∧
    (patternStarsX seed cx i = cx + placeIdx seed i 13 160 - 80 ∧
     patternStarsY seed cy i = cy + placeIdx seed i 17 160 - 80) ∧
    (heartsX seed cx i = cx + placeIdx seed i 19 140 - 70 ∧
     heartsY seed cy i = cy + placeIdx seed i 23 140 - 70) ∧
    (diamondsX seed cx i = cx + placeIdx seed i 11 150 - 75 ∧
     diamondsY seed cy i = cy + placeIdx seed i 13 150 - 75) ∧
    (particlesX seed cx i = cx + placeIdx seed i 13 200 - 100 ∧
     particlesY seed cy i = cy + placeIdx seed i 17 200 - 100) := by
  refine ⟨⟨rfl, rfl⟩, ?_, ⟨rfl, rfl⟩, ?_, ?_, ⟨rfl, rfl⟩, ⟨rfl, rfl⟩, ⟨rfl, rfl⟩,
          ⟨rfl, rfl⟩, ⟨rfl, rfl⟩⟩
  · simp [buildingsBh, place, mul_one]
  · simp [treesTh, placeIdx, mul_one]
  · simp [lavaX, placeIdx, mul_one]

/-- Claim C7: with a pattern outside {solid, none} the single pattern fragment
is nested inside the head-clip group and the rest of the body is pattern
independent; with pattern solid or none no pattern markup is emitted at all;
and `_pattern` emits nothing for an identifier outside the recognized
vocabulary. -/
theorem pattern_clipping (color p : String) (w h seed : Int) :
    (p ∉ ["solid", "none"] →
      bodyParts color p w h seed =
        bodyFixedPre ((BODY_COLORS color).getD brownTriple) (w.fdiv 2) (h.fdiv 2) ++
        ["<g clip-path=\"url(#head-clip)\">" ++ _pattern p (w.fdiv 2) (h.fdiv 2) seed ++ "</g>"] ++
        bodyMuzzle (w.fdiv 2) (h.fdiv 2)) ∧
    (p ∈ ["solid", "none"] →
      bodyParts color p w h seed =
        bodyFixedPre ((BODY_COLORS color).getD brownTriple) (w.fdiv 2) (h.fdiv 2) ++
        bodyMuzzle (w.fdiv 2) (h.fdiv 2)) ∧
    (p ∉ ["spots", "stripes", "stars", "hearts", "diamonds", "swirls", "gradient",
          "nebula", "lightning", "flames", "fractals", "aurora", "quantum",
          "cosmic_dust", "void"] →
      _pattern p (w.fdiv 2) (h.fdiv 2) seed = "") := by
  refine ⟨fun h1 => ?_, fun h2 => ?_, fun h3 => ?_⟩
  · simp [bodyParts, h1]
  · simp [bodyParts, h2]
  · simp only [List.mem_cons, List.not_mem_nil, or_false, not_or] at h3
    obtain ⟨m1, m2, m3, m4, m5, m6, m7, m8, m9, m10, m11, m12, m13, m14, m15⟩ := h3
    simp [_pattern, m1, m2, m3, m4, m5, m6, m7, m8, m9, m10, m11, m12, m13, m14, m15]

/-- Claim C7 witness: the three arms applied at the concrete patterns
`"spots"`, `"solid"` and the unrecognized `"zigzag"`. -/
theorem pattern_clipping_witness :
    ("spots" : String) ∉ ["solid", "none"] ∧
    bodyParts "brown" "spots" 400 400 1 =
      bodyFixedPre ((BODY_COLORS "brown").getD brownTriple) ((400 : Int).fdiv 2) ((400 : Int).fdiv 2) ++
      ["<g clip-path=\"url(#head-clip)\">" ++ _pattern "spots" ((400 : Int).fdiv 2) ((400 : Int).fdiv 2) 1 ++ "</g>"] ++
      bodyMuzzle ((400 : Int).fdiv 2) ((400 : Int).fdiv 2) ∧
    ("solid" : String) ∈ ["solid", "none"] ∧
    bodyParts "brown" "solid" 400 400 1 =
      bodyFixedPre ((BODY_COLORS "brown").getD brownTriple) ((400 : Int).fdiv 2) ((400 : Int).fdiv 2) ++
      bodyMuzzle ((400 : Int).fdiv 2) ((400 : Int).fdiv 2) ∧
    _pattern "zigzag" ((400 : Int).fdiv 2) ((400 : Int).fdiv 2) 1 = "" :=
  ⟨by decide,
   (pattern_clipping "brown" "spots" 400 400 1).1 (by decide),
   by decide,
   (pattern_clipping "brown" "solid" 400 400 1).2.1 (by decide),
   (pattern_clipping "brown" "zigzag" 400 400 1).2.2 (by decide)⟩

/-- Claim C8 (a bug in the code): the head-clip ellipse that `_generate_defs`
emits is hard-coded at (200, 200) — `_generate_defs` does not even receive the
canvas size — while the head ellipse drawn by the body renderer is centered at
(w/2, h/2).  The two coincide only on the default 400 by 400 canvas; at the
failing input w = h = 100 (the 100-pixel thumbnail path) the head center is
(50, 50), not (200, 200), so the clip region does not sit on the head. -/
theorem clip_center_mismatch :
    (∃ pre post : String,
      _generate_defs =
        pre ++ "<clipPath id=\"head-clip\"><ellipse cx=\"200\" cy=\"200\" rx=\"110\" ry=\"115\"/></clipPath>" ++ post) ∧
    (clipCx, clipCy) = (200, 200) ∧
    ((100 : Int).fdiv 2, (100 : Int).fdiv 2) = (50, 50) ∧
    (clipCx, clipCy) ≠ ((100 : Int).fdiv 2, (100 : Int).fdiv 2) ∧
    (clipCx, clipCy) = ((400 : Int).fdiv 2, (400 : Int).fdiv 2) ∧
    (bodyParts "brown" "spots" 100 100 1)[6]? =
      some "<ellipse cx=\"50\" cy=\"50\" rx=\"110\" ry=\"115\" fill=\"#8B4513\" filter=\"url(#shadow)\"/>" := by
  have hmid :
      s!"<clipPath id=\"head-clip\"><ellipse cx=\"{clipCx}\" cy=\"{clipCy}\" rx=\"110\" ry=\"115\"/></clipPath>" =
        "<clipPath id=\"head-clip\"><ellipse cx=\"200\" cy=\"200\" rx=\"110\" ry=\"115\"/></clipPath>" := by
    decide
  refine ⟨⟨defsHeader, "\n</defs>", ?_⟩, by decide, by decide, by decide, by decide, by decide⟩
  rw [_generate_defs, hmid]

/-- Claim C9: `generate_thumbnail dna s` returns exactly the document of
`generate_svg dna s s`, and every produced document opens with a root tag
declaring the requested width and height. -/
theorem thumbnail_and_canvas_sizing (dna : MonkeyDNA) (s w h : Int) :
    generate_thumbnail dna s = generate_svg dna s s ∧
    ∃ rest : String,
      generate_svg dna w h =
        s!"<svg width=\"{w}\" height=\"{h}\" viewBox=\"0 0 {w} {h}\" xmlns=\"http://www.w3.org/2000/svg\">" ++
        "\n" ++ rest := by
  refine ⟨rfl, joinSep "\n"
    [_generate_defs,
     _generate_background dna.background w h (seedOf dna),
     _generate_special_back dna.special w h,
     _generate_body dna.body_color dna.pattern w h (seedOf dna),
     _generate_face dna.face_expression w h,
     _generate_accessory dna.accessory w h,
     _generate_special_front dna.special w h (seedOf dna),
     _generate_badge dna w h,
     "</svg>"], ?_⟩
  rfl

/-- Claim C10: the waves, peaks and vortex scene families never read the seed,
so for any two seeds the beach, mountains and black_hole backgrounds render
byte-identical markup — these three backgrounds look the same for every DNA
fingerprint. -/
theorem seed_independent_backgrounds (w h s₁ s₂ : Int) :
    _scene_elements "waves" w h s₁ = _scene_elements "waves" w h s₂ ∧
    _scene_elements "peaks" w h s₁ = _scene_elements "peaks" w h s₂ ∧
    _scene_elements "vortex" w h s₁ = _scene_elements "vortex" w h s₂ ∧
    _generate_background "beach" w h s₁ = _generate_background "beach" w h s₂ ∧
    _generate_background "mountains" w h s₁ = _generate_background "mountains" w h s₂ ∧
    _generate_background "black_hole" w h s₁ = _generate_background "black_hole" w h s₂ := by
  refine ⟨?_, ?_, ?_, ?_, ?_, ?_⟩ <;>
    simp only [_generate_background, BACKGROUNDS, Option.getD_some, _scene_elements,
               String.reduceEq, reduceIte]

end ForkMonkey
